import Mathlib

/-!
Verification of the MeshAudio relay router (src/meshaudio.js) and the viewer
client / playout scheduler (src/web/meshaudio.js), as a shallow embedding.

Server state is the four JS `Map`s of `createMeshAudioPlugin`, embedded as
association lists with JS `Map` semantics (unique keys, `set` replaces in
place, insertion order preserved).  WebSocket connections are embedded as a
record of an identifier and a `readyState` (`WebSocket.OPEN = 1`).  Outbound
effects (sends, closes, terminations) are collected in event lists; the
handlers themselves are pure state transformers.
-/

namespace MeshAudio

/-- JS `Map.get`: the value of the (unique) entry with the given key. -/
def mapGet {α β : Type} [DecidableEq α] : List (α × β) → α → Option β
  | [], _ => none
  | (k', v) :: rest, k => if k = k' then some v else mapGet rest k

/-- JS `Map.set`: replace the entry in place if the key is present, else append. -/
def mapSet {α β : Type} [DecidableEq α] : List (α × β) → α → β → List (α × β)
  | [], k, v => [(k, v)]
  | (k', v') :: rest, k, v =>
      if k' = k then (k, v) :: rest else (k', v') :: mapSet rest k v

/-- JS `Map.delete`: remove every entry with the given key. -/
def mapDelete {α β : Type} [DecidableEq α] : List (α × β) → α → List (α × β)
  | [], _ => []
  | (k', v) :: rest, k =>
      if k' = k then mapDelete rest k else (k', v) :: mapDelete rest k

/-- A WebSocket connection: an identity and its `readyState`
(`WebSocket.OPEN = 1`). -/
structure Conn where
  id : Nat
  readyState : Nat
  deriving DecidableEq

/-- A session record as stored by `POST /token`:
`sessions.set(sessionId, { deviceId, token, userId, expiresAt })`
(src/meshaudio.js line 53).  `expiresAt` is epoch milliseconds. -/
structure Session where
  deviceId : String
  token : String
  userId : String
  expiresAt : Nat
  deriving DecidableEq

/-- The four shared tables of `createMeshAudioPlugin`
(src/meshaudio.js lines 30-33).  The `heartbeats` set and the liveness
timer are not modelled (no claim concerns them). -/
structure ServerState where
  agents : List (String × Conn)
  sessions : List (String × Session)
  viewers : List (String × Conn)
  activeSessionByDevice : List (String × String)
  deriving DecidableEq

/-- JSON payloads the router sends, by shape. -/
inductive Payload where
  | startCmd (sessionId : String) (mode : String)
  | stopCmd
  | statusCmd
  | errorMsg (reason : String)
  | statusState (state : String)
  | viewerConnected (deviceId sessionId : String) (agentOnline : Bool)
  deriving DecidableEq

/-- Outbound effects of a handler invocation, in emission order. -/
inductive Event where
  | sendAgent (deviceId : String) (p : Payload)
  | sendViewer (sessionId : String) (p : Payload)
  | sendViewerBinary (sessionId : String) (data : List Nat)
  | closeConn (connId : Nat) (code : Nat) (reason : String)
  | closeViewer (sessionId : String) (code : Nat) (reason : String)
  | terminateConn (connId : Nat)
  deriving DecidableEq

/-- `sendToAgent(deviceId, payload)` (src/meshaudio.js lines 247-254):
delivers only when the agent connection exists and is `OPEN`; returns
whether it delivered. -/
def sendToAgent (st : ServerState) (deviceId : String) (payload : Payload) :
    Bool × List Event :=
  match mapGet st.agents deviceId with
  | none => (false, [])
  | some ws =>
      if ws.readyState ≠ 1 then (false, [])
      else (true, [Event.sendAgent deviceId payload])

/-- `forwardAudio(deviceId, data)` (src/meshaudio.js lines 256-270): drop
unless the leading byte is `0x01`, the device has an active pairing, and the
paired viewer's transport is `OPEN`; otherwise send the buffer verbatim.
The function reads the shared tables and mutates nothing. -/
def forwardAudio (st : ServerState) (deviceId : String) (data : List Nat) :
    List Event :=
  if data.length < 1 ∨ data.getD 0 0 ≠ 1 then []
  else
    match mapGet st.activeSessionByDevice deviceId with
    | none => []
    | some sessionId =>
        match mapGet st.viewers sessionId with
        | none => []
        | some viewer =>
            if viewer.readyState ≠ 1 then []
            else [Event.sendViewerBinary sessionId data]

/-- `onAgentConnected` registration step (src/meshaudio.js lines 135-152):
reject when the device id is missing (falsy, modelled as `""`) or the shared
secret (when configured, i.e. truthy / `≠ ""`) does not match; otherwise
terminate any existing connection for the id and register the new one. -/
def onAgentConnected (st : ServerState) (agentSecret token deviceId : String)
    (ws : Conn) : ServerState × List Event :=
  if deviceId = "" ∨ (agentSecret ≠ "" ∧ token ≠ agentSecret) then
    (st, [Event.closeConn ws.id 1008 "unauthorized"])
  else
    let evs :=
      match mapGet st.agents deviceId with
      | some existing => [Event.terminateConn existing.id]
      | none => []
    ({ st with agents := mapSet st.agents deviceId ws }, evs)

/-- The `close` handler an agent connection registers at connect time
(src/meshaudio.js lines 153-163).  It is a closure over that connection's
`deviceId`: it deletes the registry entry for `deviceId` unconditionally,
then clears any active pairing and notifies the paired viewer. -/
def onAgentClose (st : ServerState) (deviceId : String) :
    ServerState × List Event :=
  let st1 := { st with agents := mapDelete st.agents deviceId }
  match mapGet st1.activeSessionByDevice deviceId with
  | none => (st1, [])
  | some activeSession =>
      if activeSession = "" then (st1, [])
      else
        let st2 := { st1 with
          activeSessionByDevice := mapDelete st1.activeSessionByDevice deviceId }
        match mapGet st2.viewers activeSession with
        | none => (st2, [])
        | some _ =>
            (st2, [Event.sendViewer activeSession
                     (Payload.statusState "agent_disconnected")])

/-- `onViewerConnected` validation and registration (src/meshaudio.js lines
185-198 and 239-244): look the session up (a falsy/absent `sessionId`,
modelled as `""`, yields no session), reject with close code 1008 when the
session is unknown, the token mismatches, or `expiresAt < now`; otherwise
register the viewer and send the `viewer_connected` frame. -/
def onViewerConnected (st : ServerState) (sessionId token : String)
    (now : Nat) (ws : Conn) : ServerState × List Event :=
  let session := if sessionId = "" then none else mapGet st.sessions sessionId
  match session with
  | none => (st, [Event.closeConn ws.id 1008 "invalid session"])
  | some s =>
      if s.token ≠ token ∨ s.expiresAt < now then
        (st, [Event.closeConn ws.id 1008 "invalid session"])
      else
        let st' := { st with viewers := mapSet st.viewers sessionId ws }
        (st', [Event.sendViewer sessionId
                 (Payload.viewerConnected s.deviceId sessionId
                    (mapGet st'.agents s.deviceId).isSome)])

/-- A parsed viewer control message (`msg.action`), after `JSON.parse`.
`mode` is `msg.mode` (`none` when absent; `"" ` is falsy). -/
inductive ViewerAction where
  | start (mode : Option String)
  | stop
  | status
  deriving DecidableEq

/-- `msg.mode || 'wss'` (src/meshaudio.js line 227). -/
def modeOrDefault : Option String → String
  | none => "wss"
  | some m => if m = "" then "wss" else m

/-- The viewer `message` handler (src/meshaudio.js lines 209-237), a closure
over the connection's `deviceId` and `sessionId`.  On `start`: if another
(truthy) session is paired and the listener limit is ≤ 1, answer with the
listener-conflict error and stop; otherwise overwrite the pairing and send
`start` to the agent, answering `agent not connected` when delivery fails.
On `stop`: clear the pairing and send `stop` to the agent.  On `status`:
relay a `status` request to the agent. -/
def onViewerMessage (maxListenersPerDevice : Nat) (st : ServerState)
    (deviceId sessionId : String) (msg : ViewerAction) :
    ServerState × List Event :=
  match msg with
  | .start mode =>
      let current := mapGet st.activeSessionByDevice deviceId
      let conflict : Bool :=
        match current with
        | some c => c != "" && c != sessionId
        | none => false
      if conflict && maxListenersPerDevice ≤ 1 then
        (st, [Event.sendViewer sessionId
                (Payload.errorMsg "another listener is active")])
      else
        let st' := { st with
          activeSessionByDevice := mapSet st.activeSessionByDevice deviceId sessionId }
        let sent := sendToAgent st' deviceId
          (Payload.startCmd sessionId (modeOrDefault mode))
        if sent.1 then (st', sent.2)
        else (st', sent.2 ++ [Event.sendViewer sessionId
                                (Payload.errorMsg "agent not connected")])
  | .stop =>
      let st' := { st with
        activeSessionByDevice := mapDelete st.activeSessionByDevice deviceId }
      (st', (sendToAgent st' deviceId Payload.stopCmd).2)
  | .status =>
      (st, (sendToAgent st deviceId Payload.statusCmd).2)

/-- The body of the `cleanupExpiredSessions` loop for one `(sessionId,
session)` entry (src/meshaudio.js lines 120-131): when expired, close a
connected viewer with `(4000, 'session expired')`, clear the active pairing
when it points at this session (sending `stop` to the device), and delete
the session. -/
def sweepBody (now : Nat) (st : ServerState) (sessionId : String)
    (s : Session) : ServerState × List Event :=
  if s.expiresAt < now then
    let closeEvs :=
      match mapGet st.viewers sessionId with
      | some _ => [Event.closeViewer sessionId 4000 "session expired"]
      | none => []
    let step :=
      if mapGet st.activeSessionByDevice s.deviceId = some sessionId then
        let st' := { st with
          activeSessionByDevice := mapDelete st.activeSessionByDevice s.deviceId }
        (st', (sendToAgent st' s.deviceId Payload.stopCmd).2)
      else (st, ([] : List Event))
    ({ step.1 with sessions := mapDelete step.1.sessions sessionId },
     closeEvs ++ step.2)
  else (st, [])

/-- The state after the sweep loop has processed the given entries in order. -/
def sweepStates (now : Nat) : ServerState → List (String × Session) → ServerState
  | st, [] => st
  | st, e :: rest => sweepStates now (sweepBody now st e.1 e.2).1 rest

/-- The events the sweep loop emits processing the given entries in order. -/
def sweepEvents (now : Nat) : ServerState → List (String × Session) → List Event
  | _, [] => []
  | st, e :: rest =>
      (sweepBody now st e.1 e.2).2 ++
        sweepEvents now (sweepBody now st e.1 e.2).1 rest

/-- `cleanupExpiredSessions()` (src/meshaudio.js lines 118-133): iterate the
session table in insertion order (deleting only the entry under scrutiny is
safe during JS `Map` iteration, so a fold over the initial entry list is
equivalent). -/
def cleanupExpiredSessions (st : ServerState) (now : Nat) :
    ServerState × List Event :=
  (sweepStates now st st.sessions, sweepEvents now st st.sessions)

/-! ## Viewer client (src/web/meshaudio.js) -/

/-- `MeshAudioPlayer` scheduling state (constructor, src/web/meshaudio.js
lines 24-27): `playHead`, `baseTimestampUs` (`null` before the first frame)
and `playStart`.  Clock values are seconds on the `AudioContext` timeline,
embedded as exact rationals. -/
structure PlayerState where
  playHead : ℚ
  baseTimestampUs : Option ℚ
  playStart : ℚ
  deriving DecidableEq

/-- `this.jitterSec = 0.08` (src/web/meshaudio.js line 27): the 80 ms jitter
budget. -/
def jitterSec : ℚ := 8 / 100

/-- A fresh `MeshAudioPlayer`'s scheduling state. -/
def initPlayer : PlayerState := { playHead := 0, baseTimestampUs := none, playStart := 0 }

/-- `MeshAudioPlayer.handleDecoded` (src/web/meshaudio.js lines 85-119),
restricted to its scheduling arithmetic: on the first frame record the base
timestamp and set `playStart` (the playout origin) and `playHead` to
`currentTime + jitterSec`; then schedule the decoded buffer at
`startAt = max(currentTime, playHead, playStart + (timestampUs - base)/1e6)`
and advance `playHead` by the buffer duration.  Returns the new state and
the `startAt` passed to `src.start`. -/
def handleDecoded (st : PlayerState) (currentTime timestampUs duration : ℚ) :
    PlayerState × ℚ :=
  let base :=
    match st.baseTimestampUs with
    | none => timestampUs
    | some b => b
  let playStart :=
    match st.baseTimestampUs with
    | none => currentTime + jitterSec
    | some _ => st.playStart
  let playHead :=
    match st.baseTimestampUs with
    | none => playStart
    | some _ => st.playHead
  let relSeconds := (timestampUs - base) / 1000000
  let targetTime := playStart + relSeconds
  let startAt := max currentTime (max playHead targetTime)
  ({ playHead := startAt + duration,
     baseTimestampUs := some base,
     playStart := playStart }, startAt)

/-- The playhead in force at the moment a frame is scheduled: for the first
frame of a stream `handleDecoded` initialises it to `currentTime + jitterSec`
before computing `startAt`; afterwards it is the stored `playHead`. -/
def effectivePlayHead (st : PlayerState) (currentTime : ℚ) : ℚ :=
  match st.baseTimestampUs with
  | none => currentTime + jitterSec
  | some _ => st.playHead

/-- `DataView.getUint8(off)` over a byte list. -/
def getUint8 (b : List Nat) (off : Nat) : Nat := b.getD off 0

/-- `DataView.getUint32(off, true)` (little endian) over a byte list. -/
def getUint32le (b : List Nat) (off : Nat) : Nat :=
  b.getD off 0 + 256 * b.getD (off + 1) 0 + 65536 * b.getD (off + 2) 0 +
    16777216 * b.getD (off + 3) 0

/-- The unsigned little-endian 64-bit value at `off`. -/
def getUint64le (b : List Nat) (off : Nat) : Nat :=
  b.getD off 0 + 256 * b.getD (off + 1) 0 + 65536 * b.getD (off + 2) 0 +
    16777216 * b.getD (off + 3) 0 + 4294967296 * b.getD (off + 4) 0 +
    1099511627776 * b.getD (off + 5) 0 + 281474976710656 * b.getD (off + 6) 0 +
    72057594037927936 * b.getD (off + 7) 0

/-- `DataView.getBigInt64(off, true)`: the two's-complement (signed) reading
of the little-endian 64-bit value at `off`. -/
def getBigInt64le (b : List Nat) (off : Nat) : Int :=
  let u := getUint64le b off
  if u < 9223372036854775808 then (u : Int) else (u : Int) - 18446744073709551616

/-- `MeshAudioClient.handleBinary(buffer)` (src/web/meshaudio.js lines
241-267): drop frames shorter than 13 bytes or whose type marker (byte 0) is
not `0x01`; otherwise read the sequence number (bytes 1-4, little-endian
32-bit), the presentation timestamp in ms (bytes 5-12, `getBigInt64`
little-endian), and hand `buffer.slice(13)` to the decoder.  Returns what is
enqueued (`none` = dropped; the `Number.isNaN` guard cannot fire, since
`Number` of a `BigInt` is never `NaN`). -/
def handleBinary (buffer : List Nat) : Option (Nat × Int × List Nat) :=
  if buffer.length < 13 then none
  else
    let t := getUint8 buffer 0
    if t ≠ 1 then none
    else
      let seq := getUint32le buffer 1
      let timestampMs := getBigInt64le buffer 5
      some (seq, timestampMs, buffer.drop 13)

/-- Little-endian interpretation of a byte list, written independently of
the `DataView` offset readers (used to state what the parser extracts). -/
def leNat : List Nat → Nat
  | [] => 0
  | b :: rest => b + 256 * leNat rest

/-- Two's-complement reinterpretation of a 64-bit unsigned value. -/
def toSigned64 (n : Nat) : Int :=
  if n < 9223372036854775808 then (n : Int) else (n : Int) - 18446744073709551616

/-- Whether `sendToAgent` would deliver: the device's agent connection is
registered and its transport is `OPEN`. -/
def agentOpen (st : ServerState) (deviceId : String) : Bool :=
  match mapGet st.agents deviceId with
  | none => false
  | some ws => ws.readyState == 1

/-! ## Lemmas about the JS `Map` embedding -/

theorem mapGet_mapDelete {α β : Type} [DecidableEq α]
    (m : List (α × β)) (k k' : α) :
    mapGet (mapDelete m k) k' = if k' = k then none else mapGet m k' := by
  induction m with
  | nil => simp [mapDelete, mapGet]
  | cons p rest ih =>
      obtain ⟨a, b⟩ := p
      simp only [mapDelete]
      by_cases hak : a = k
      · rw [if_pos hak, ih]
        subst hak
        by_cases hk : k' = a
        · simp [hk]
        · simp [mapGet, hk]
      · rw [if_neg hak]
        by_cases hk : k' = a
        · have hkk : ¬ k' = k := fun h => hak (hk.symm.trans h)
          simp [mapGet, hk, hkk, hak]
        · simp [mapGet, hk, ih]

theorem mapGet_mapSet {α β : Type} [DecidableEq α]
    (m : List (α × β)) (k k' : α) (v : β) :
    mapGet (mapSet m k v) k' = if k' = k then some v else mapGet m k' := by
  induction m with
  | nil => simp [mapSet, mapGet]
  | cons p rest ih =>
      obtain ⟨a, b⟩ := p
      simp only [mapSet]
      by_cases hak : a = k
      · rw [if_pos hak]
        subst hak
        by_cases hk : k' = a
        · simp [mapGet, hk]
        · simp [mapGet, hk]
      · rw [if_neg hak]
        by_cases hk : k' = a
        · have hkk : ¬ k' = k := fun h => hak (hk.symm.trans h)
          simp [mapGet, hk, hkk, hak]
        · simp [mapGet, hk, ih]

theorem mem_of_mapGet {α β : Type} [DecidableEq α]
    {m : List (α × β)} {k : α} {v : β} (h : mapGet m k = some v) :
    (k, v) ∈ m := by
  induction m with
  | nil => simp [mapGet] at h
  | cons p rest ih =>
      obtain ⟨a, b⟩ := p
      by_cases hk : k = a
      · subst hk
        simp [mapGet] at h
        simp [h]
      · simp [mapGet, hk] at h
        simp [ih h]

theorem mapGet_eq_of_mem_nodup {α β : Type} [DecidableEq α]
    {m : List (α × β)} {k : α} {v : β}
    (hnd : (m.map Prod.fst).Nodup) (h : (k, v) ∈ m) :
    mapGet m k = some v := by
  induction m with
  | nil => simp at h
  | cons p rest ih =>
      obtain ⟨a, b⟩ := p
      simp only [List.map_cons, List.nodup_cons] at hnd
      rcases List.mem_cons.mp h with h1 | h1
      · obtain ⟨rfl, rfl⟩ := Prod.mk.injEq .. ▸ h1
        simp_all [mapGet]
      · have hka : k ≠ a := by
          rintro rfl
          exact hnd.1 (List.mem_map.mpr ⟨(k, v), h1, rfl⟩)
        simp [mapGet, hka, ih hnd.2 h1]

/-! ## Claim theorems -/

/-- C1: when a device is paired to session `s1` and a viewer holding a
different session `s2` for that device sends `start` (listener limit 1), the
router answers that viewer with the explicit listener-conflict error and the
Active Pairing entry for the device still maps to `s1` (the state is
unchanged). -/
theorem start_listenerConflict_rejects_and_preserves_pairing
    (st : ServerState) (d s1 s2 : String) (mode : Option String)
    (hpair : mapGet st.activeSessionByDevice d = some s1)
    (hs1 : s1 ≠ "") (hne : s1 ≠ s2) :
    onViewerMessage 1 st d s2 (ViewerAction.start mode) =
      (st, [Event.sendViewer s2 (Payload.errorMsg "another listener is active")]) ∧
    mapGet (onViewerMessage 1 st d s2
        (ViewerAction.start mode)).1.activeSessionByDevice d = some s1 := by
  have h : onViewerMessage 1 st d s2 (ViewerAction.start mode) =
      (st, [Event.sendViewer s2 (Payload.errorMsg "another listener is active")]) := by
    simp [onViewerMessage, hpair, hs1, hne]
  exact ⟨h, by rw [h]; exact hpair⟩

/-- Witness for C1 at a concrete state: device `"d"` paired to `"s1"`,
viewer `"s2"` requests `start`. -/
theorem start_listenerConflict_witness :
    onViewerMessage 1
        { agents := [], sessions := [], viewers := [],
          activeSessionByDevice := [("d", "s1")] } "d" "s2"
        (ViewerAction.start none) =
      ({ agents := [], sessions := [], viewers := [],
         activeSessionByDevice := [("d", "s1")] },
       [Event.sendViewer "s2" (Payload.errorMsg "another listener is active")]) ∧
    mapGet (onViewerMessage 1
        { agents := [], sessions := [], viewers := [],
          activeSessionByDevice := [("d", "s1")] } "d" "s2"
        (ViewerAction.start none)).1.activeSessionByDevice "d" = some "s1" :=
  start_listenerConflict_rejects_and_preserves_pairing _ "d" "s1" "s2" none
    (by decide) (by decide) (by decide)

/-- C2 (code bug): takeover works at connect time — the prior connection is
terminated and the new one registered — but when the superseded connection's
`close` event is then processed, its handler deletes the device's registry
entry unconditionally (src/meshaudio.js line 154), deregistering the *new*
connection.  The trace below evaluates the code on device `"d"`: connection
1 connects, connection 2 takes over (connection 1 is terminated), then
connection 1's `close` fires — and the registry entry for `"d"` is gone. -/
theorem agent_takeover_stale_close_bug :
    (mapGet (onAgentConnected
        { agents := [], sessions := [], viewers := [],
          activeSessionByDevice := [] } "sec" "sec" "d" ⟨1, 1⟩).1.agents "d"
      = some ⟨1, 1⟩) ∧
    ((onAgentConnected (onAgentConnected
        { agents := [], sessions := [], viewers := [],
          activeSessionByDevice := [] } "sec" "sec" "d" ⟨1, 1⟩).1
        "sec" "sec" "d" ⟨2, 1⟩).2 = [Event.terminateConn 1]) ∧
    (mapGet (onAgentConnected (onAgentConnected
        { agents := [], sessions := [], viewers := [],
          activeSessionByDevice := [] } "sec" "sec" "d" ⟨1, 1⟩).1
        "sec" "sec" "d" ⟨2, 1⟩).1.agents "d" = some ⟨2, 1⟩) ∧
    (mapGet (onAgentClose (onAgentConnected (onAgentConnected
        { agents := [], sessions := [], viewers := [],
          activeSessionByDevice := [] } "sec" "sec" "d" ⟨1, 1⟩).1
        "sec" "sec" "d" ⟨2, 1⟩).1 "d").1.agents "d" = none) := by
  decide

/-- C3: a binary frame from a device is forwarded exactly when the device
has an active pairing whose viewer is registered with an `OPEN` transport
and the leading byte is `0x01`; the delivered bytes are the frame itself,
and in every other case nothing is emitted (the handler touches no state). -/
theorem forwardAudio_spec (st : ServerState) (d : String) (data : List Nat) :
    (∀ sid w, mapGet st.activeSessionByDevice d = some sid →
       mapGet st.viewers sid = some w → w.readyState = 1 →
       1 ≤ data.length → data.getD 0 0 = 1 →
       forwardAudio st d data = [Event.sendViewerBinary sid data]) ∧
    ((data.length < 1 ∨ data.getD 0 0 ≠ 1) → forwardAudio st d data = []) ∧
    (mapGet st.activeSessionByDevice d = none → forwardAudio st d data = []) ∧
    (∀ sid, mapGet st.activeSessionByDevice d = some sid →
       mapGet st.viewers sid = none → forwardAudio st d data = []) ∧
    (∀ sid w, mapGet st.activeSessionByDevice d = some sid →
       mapGet st.viewers sid = some w → w.readyState ≠ 1 →
       forwardAudio st d data = []) := by
  refine ⟨?_, ?_, ?_, ?_, ?_⟩
  · intro sid w hpair hview hopen hlen hb
    obtain ⟨b, rest, rfl⟩ : ∃ b rest, data = b :: rest := by
      cases data with
      | nil => simp at hlen
      | cons b rest => exact ⟨b, rest, rfl⟩
    simp only [List.getD_cons_zero] at hb
    simp [forwardAudio, hb, hpair, hview, hopen]
  · intro h
    unfold forwardAudio
    rw [if_pos h]
  · intro h
    unfold forwardAudio
    by_cases hdrop : data.length < 1 ∨ data.getD 0 0 ≠ 1
    · rw [if_pos hdrop]
    · rw [if_neg hdrop]
      simp [h]
  · intro sid hpair hview
    unfold forwardAudio
    by_cases hdrop : data.length < 1 ∨ data.getD 0 0 ≠ 1
    · rw [if_pos hdrop]
    · rw [if_neg hdrop]
      simp [hpair, hview]
  · intro sid w hpair hview hopen
    unfold forwardAudio
    by_cases hdrop : data.length < 1 ∨ data.getD 0 0 ≠ 1
    · rw [if_pos hdrop]
    · rw [if_neg hdrop]
      simp [hpair, hview, hopen]

/-- Witness for C3: a paired device with an open viewer forwards the frame
`[1, 2, 3]` verbatim. -/
theorem forwardAudio_spec_witness :
    forwardAudio
        { agents := [], sessions := [], viewers := [("s", ⟨7, 1⟩)],
          activeSessionByDevice := [("d", "s")] } "d" [1, 2, 3] =
      [Event.sendViewerBinary "s" [1, 2, 3]] :=
  (forwardAudio_spec _ "d" [1, 2, 3]).1 "s" ⟨7, 1⟩ (by decide) (by decide)
    (by decide) (by decide) (by decide)

/-- C10: the viewer `stop` handler does not check that the sender's session
is the paired one: with device `d` paired to `s1`, a viewer holding a
different session `s2` for `d` sending `stop` clears `d`'s Active Pairing
and sends a `stop` instruction to the (connected, open) device. -/
theorem stop_from_other_session_clears_pairing
    (st : ServerState) (d s1 s2 : String) (ws : Conn)
    (hpair : mapGet st.activeSessionByDevice d = some s1)
    (hne : s2 ≠ s1)
    (hagent : mapGet st.agents d = some ws) (hopen : ws.readyState = 1) :
    onViewerMessage 1 st d s2 ViewerAction.stop =
      ({ st with activeSessionByDevice := mapDelete st.activeSessionByDevice d },
       [Event.sendAgent d Payload.stopCmd]) ∧
    mapGet (onViewerMessage 1 st d s2
        ViewerAction.stop).1.activeSessionByDevice d = none := by
  have h : onViewerMessage 1 st d s2 ViewerAction.stop =
      ({ st with activeSessionByDevice := mapDelete st.activeSessionByDevice d },
       [Event.sendAgent d Payload.stopCmd]) := by
    simp [onViewerMessage, sendToAgent, hagent, hopen]
  refine ⟨h, ?_⟩
  rw [h]
  simp [mapGet_mapDelete]

/-- Witness for C10: pairing `"d" → "s1"`, open agent, viewer `"s2"` sends
`stop`. -/
theorem stop_from_other_session_witness :
    onViewerMessage 1
        { agents := [("d", ⟨3, 1⟩)], sessions := [], viewers := [],
          activeSessionByDevice := [("d", "s1")] } "d" "s2" ViewerAction.stop =
      ({ agents := [("d", ⟨3, 1⟩)], sessions := [], viewers := [],
         activeSessionByDevice := [] },
       [Event.sendAgent "d" Payload.stopCmd]) ∧
    mapGet (onViewerMessage 1
        { agents := [("d", ⟨3, 1⟩)], sessions := [], viewers := [],
          activeSessionByDevice := [("d", "s1")] } "d" "s2"
        ViewerAction.stop).1.activeSessionByDevice "d" = none :=
  stop_from_other_session_clears_pairing _ "d" "s1" "s2" ⟨3, 1⟩
    (by decide) (by decide) (by decide) (by decide)

/-- C4 counterexample: the claim says an attempt at the instant
`now = expiresAt` is rejected, but the code's guard is `expiresAt < now`
(src/meshaudio.js line 191), so with a known session, matching token and
`now = expiresAt = 100` the connection is *accepted*: the viewer is
registered and receives the `viewer_connected` frame instead of the
invalid-session close. -/
theorem viewer_accepted_at_expiry_instant :
    (onViewerConnected
        { agents := [], sessions := [("s", ⟨"d", "t", "u", 100⟩)],
          viewers := [], activeSessionByDevice := [] } "s" "t" 100 ⟨5, 1⟩).2 =
      [Event.sendViewer "s" (Payload.viewerConnected "d" "s" false)] ∧
    (onViewerConnected
        { agents := [], sessions := [("s", ⟨"d", "t", "u", 100⟩)],
          viewers := [], activeSessionByDevice := [] } "s" "t" 100 ⟨5, 1⟩).2 ≠
      [Event.closeConn 5 1008 "invalid session"] ∧
    mapGet (onViewerConnected
        { agents := [], sessions := [("s", ⟨"d", "t", "u", 100⟩)],
          viewers := [], activeSessionByDevice := [] } "s" "t" 100
        ⟨5, 1⟩).1.viewers "s" = some ⟨5, 1⟩ := by
  decide

/-- C4 (amended): a viewer connection attempt carrying a sessionId and token
is rejected (closed with the invalid-session indication, state unchanged)
exactly when the session is unknown, the token does not match, or
`now > expiresAt`; an attempt at the instant `now = expiresAt` is accepted. -/
theorem viewer_validation_rejects_iff (st : ServerState)
    (sid tok : String) (now : Nat) (ws : Conn) (hsid : sid ≠ "") :
    onViewerConnected st sid tok now ws =
        (st, [Event.closeConn ws.id 1008 "invalid session"]) ↔
      (mapGet st.sessions sid = none ∨
        ∃ s, mapGet st.sessions sid = some s ∧
          (s.token ≠ tok ∨ s.expiresAt < now)) := by
  unfold onViewerConnected
  simp only [if_neg hsid]
  cases hs : mapGet st.sessions sid with
  | none => simp
  | some s =>
      by_cases hrej : s.token ≠ tok ∨ s.expiresAt < now
      · simp [hrej]
      · simp only [if_neg hrej]
        constructor
        · intro h
          exact absurd (congrArg Prod.snd h) (by simp)
        · rintro (h | ⟨s', hs', h⟩)
          · exact absurd h (by simp)
          · rw [Option.some.injEq] at hs'
            exact absurd (hs' ▸ h) hrej

/-- Witness for C4 (amended) at a concrete rejected attempt: wrong token. -/
theorem viewer_validation_rejects_witness :
    onViewerConnected
        { agents := [], sessions := [("s", ⟨"d", "t", "u", 100⟩)],
          viewers := [], activeSessionByDevice := [] } "s" "wrong" 0 ⟨5, 1⟩ =
      ({ agents := [], sessions := [("s", ⟨"d", "t", "u", 100⟩)],
         viewers := [], activeSessionByDevice := [] },
       [Event.closeConn 5 1008 "invalid session"]) :=
  (viewer_validation_rejects_iff _ "s" "wrong" 0 ⟨5, 1⟩ (by decide)).mpr
    (Or.inr ⟨⟨"d", "t", "u", 100⟩, by decide, Or.inl (by decide)⟩)

/-- C6 counterexample: the claim says a `start` for a device with no
connected agent establishes no Active Pairing entry, but the code sets the
pairing *before* attempting delivery (src/meshaudio.js line 226): with no
agents at all, viewer `"s"` requesting `start` for `"d"` gets the
`agent not connected` rejection, yet the pairing table now maps `"d"` to
`"s"`. -/
theorem start_deviceOffline_sets_pairing_counterexample :
    (onViewerMessage 1
        { agents := [], sessions := [], viewers := [],
          activeSessionByDevice := [] } "d" "s" (ViewerAction.start none)).2 =
      [Event.sendViewer "s" (Payload.errorMsg "agent not connected")] ∧
    mapGet (onViewerMessage 1
        { agents := [], sessions := [], viewers := [],
          activeSessionByDevice := [] } "d" "s"
        (ViewerAction.start none)).1.activeSessionByDevice "d" = some "s" := by
  decide

/-- C6 (amended): a viewer `start` for a device with no connected agent (and
no conflicting pairing) is answered with the descriptive
`agent not connected` rejection and no close — the viewer connection stays
open — but the Active Pairing entry for the device is set to the requester's
session before delivery is attempted, not left unset. -/
theorem start_deviceOffline_rejects_but_pairs
    (st : ServerState) (d s : String) (mode : Option String)
    (hagent : mapGet st.agents d = none)
    (hcur : mapGet st.activeSessionByDevice d = none ∨
            mapGet st.activeSessionByDevice d = some s) :
    onViewerMessage 1 st d s (ViewerAction.start mode) =
      ({ st with activeSessionByDevice := mapSet st.activeSessionByDevice d s },
       [Event.sendViewer s (Payload.errorMsg "agent not connected")]) := by
  rcases hcur with hcur | hcur <;>
    simp [onViewerMessage, hcur, sendToAgent, hagent]

/-- Witness for C6 (amended): empty state, `start` for `"d"` by `"s"`. -/
theorem start_deviceOffline_witness :
    onViewerMessage 1
        { agents := [], sessions := [], viewers := [],
          activeSessionByDevice := [] } "d" "s" (ViewerAction.start none) =
      ({ agents := [], sessions := [], viewers := [],
         activeSessionByDevice := [("d", "s")] },
       [Event.sendViewer "s" (Payload.errorMsg "agent not connected")]) :=
  start_deviceOffline_rejects_but_pairs _ "d" "s" none (by decide)
    (Or.inl (by decide))

/-! ## Playout scheduler lemmas -/

theorem jitterSec_nonneg : (0 : ℚ) ≤ jitterSec := by norm_num [jitterSec]

/-- The first frame of a (re)started stream starts at the playout origin
`currentTime + jitterSec`. -/
theorem handleDecoded_first (ph ps t ts dur : ℚ) :
    handleDecoded ⟨ph, none, ps⟩ t ts dur =
      ({ playHead := t + jitterSec + dur, baseTimestampUs := some ts,
         playStart := t + jitterSec }, t + jitterSec) := by
  have h0 : t ≤ t + jitterSec := by
    have := jitterSec_nonneg
    linarith
  simp [handleDecoded, max_eq_right h0]

/-- On a subsequent frame `startAt` is the max of the clock, the playhead
and the target time, and the playhead advances by the frame duration. -/
theorem handleDecoded_next (st : PlayerState) (t ts dur b : ℚ)
    (hb : st.baseTimestampUs = some b) :
    handleDecoded st t ts dur =
      ({ playHead := max t (max st.playHead (st.playStart + (ts - b) / 1000000)) + dur,
         baseTimestampUs := some b, playStart := st.playStart },
       max t (max st.playHead (st.playStart + (ts - b) / 1000000))) := by
  simp [handleDecoded, hb]

/-- `handleDecoded` on an already-started stream, state destructured. -/
theorem handleDecoded_some (ph ps b t ts dur : ℚ) :
    handleDecoded ⟨ph, some b, ps⟩ t ts dur =
      ({ playHead := max t (max ph (ps + (ts - b) / 1000000)) + dur,
         baseTimestampUs := some b, playStart := ps },
       max t (max ph (ps + (ts - b) / 1000000))) := by
  simp [handleDecoded]

/-- C7: three frames with presentation timestamps 0 µs, 20000 µs, 40000 µs
(0, 20, 40 ms), decoded durations 1/50 s (20 ms) each, handled at clock
times `t1, t2, t3` with each later frame arriving while the clock is behind
the playhead: the first `startAt` is the playout origin `t1 + jitterSec`,
and each subsequent `startAt` is exactly its predecessor's plus 1/50 s. -/
theorem playout_three_prompt_frames (t1 t2 t3 : ℚ)
    (h2 : t2 ≤ ((handleDecoded initPlayer t1 0 (1/50)).1).playHead)
    (h3 : t3 ≤ ((handleDecoded (handleDecoded initPlayer t1 0 (1/50)).1
        t2 20000 (1/50)).1).playHead) :
    (handleDecoded initPlayer t1 0 (1/50)).2 = t1 + jitterSec ∧
    (handleDecoded (handleDecoded initPlayer t1 0 (1/50)).1
        t2 20000 (1/50)).2 = (handleDecoded initPlayer t1 0 (1/50)).2 + 1/50 ∧
    (handleDecoded (handleDecoded (handleDecoded initPlayer t1 0 (1/50)).1
        t2 20000 (1/50)).1 t3 40000 (1/50)).2 =
      (handleDecoded (handleDecoded initPlayer t1 0 (1/50)).1
        t2 20000 (1/50)).2 + 1/50 := by
  have e1 : handleDecoded initPlayer t1 0 (1/50) =
      (⟨t1 + jitterSec + 1/50, some 0, t1 + jitterSec⟩, t1 + jitterSec) :=
    handleDecoded_first 0 0 t1 0 (1/50)
  have e1' : (handleDecoded initPlayer t1 0 (1/50)).1 =
      (⟨t1 + jitterSec + 1/50, some 0, t1 + jitterSec⟩ : PlayerState) := by
    rw [e1]
  have h2' : t2 ≤ t1 + jitterSec + 1/50 := by
    rw [e1'] at h2
    simpa using h2
  have e2 : handleDecoded
      (⟨t1 + jitterSec + 1/50, some 0, t1 + jitterSec⟩ : PlayerState)
      t2 20000 (1/50) =
      (⟨t1 + jitterSec + 1/50 + 1/50, some 0, t1 + jitterSec⟩,
       t1 + jitterSec + 1/50) := by
    rw [handleDecoded_some]
    have hr : t1 + jitterSec + ((20000 : ℚ) - 0) / 1000000 =
        t1 + jitterSec + 1/50 := by norm_num
    rw [hr, max_self, max_eq_right h2']
  have e2' : (handleDecoded
      (⟨t1 + jitterSec + 1/50, some 0, t1 + jitterSec⟩ : PlayerState)
      t2 20000 (1/50)).1 =
      (⟨t1 + jitterSec + 1/50 + 1/50, some 0, t1 + jitterSec⟩ : PlayerState) := by
    rw [e2]
  have h3' : t3 ≤ t1 + jitterSec + 1/50 + 1/50 := by
    rw [e1', e2'] at h3
    simpa using h3
  have e3 : handleDecoded
      (⟨t1 + jitterSec + 1/50 + 1/50, some 0, t1 + jitterSec⟩ : PlayerState)
      t3 40000 (1/50) =
      (⟨t1 + jitterSec + 1/50 + 1/50 + 1/50, some 0, t1 + jitterSec⟩,
       t1 + jitterSec + 1/50 + 1/50) := by
    rw [handleDecoded_some]
    have hr : t1 + jitterSec + ((40000 : ℚ) - 0) / 1000000 =
        t1 + jitterSec + 1/50 + 1/50 := by
      rw [add_assoc (t1 + jitterSec)]
      norm_num
    rw [hr, max_self, max_eq_right h3']
  refine ⟨by rw [e1], ?_, ?_⟩
  · rw [e1', e2, e1]
  · rw [e1', e2', e2, e3]

/-- C8 counterexample: a late frame (its target time `0` is behind the
playhead `1`) handled while the clock (`2`) is *ahead* of the playhead is
scheduled at the clock, not at the playhead: `startAt = 2 ≠ 1`. -/
theorem late_frame_startAt_not_playhead_counterexample :
    (handleDecoded ⟨1, some 0, 0⟩ 2 0 (1/50)).2 = 2 ∧
    ((⟨1, some 0, 0⟩ : PlayerState).playStart +
        (0 - 0) / 1000000 < (⟨1, some 0, 0⟩ : PlayerState).playHead) := by
  constructor
  · rw [handleDecoded_next ⟨1, some 0, 0⟩ 2 0 (1/50) 0 rfl]
    norm_num
  · norm_num

/-- C8 (amended): every frame's `startAt` is at least the playhead in force
when it is scheduled (so it never precedes any prior frame's scheduled
end); for a late frame — target time behind the playhead — `startAt` is
`max(currentTime, playhead)`, which equals the playhead exactly when the
clock has not passed the playhead. -/
theorem startAt_never_precedes_playhead (st : PlayerState) (t ts dur b : ℚ) :
    (effectivePlayHead st t ≤ (handleDecoded st t ts dur).2) ∧
    (st.baseTimestampUs = some b →
      st.playStart + (ts - b) / 1000000 < st.playHead →
      (handleDecoded st t ts dur).2 = max t st.playHead) ∧
    (st.baseTimestampUs = some b →
      st.playStart + (ts - b) / 1000000 < st.playHead →
      t ≤ st.playHead → (handleDecoded st t ts dur).2 = st.playHead) := by
  refine ⟨?_, ?_, ?_⟩
  · cases hb : st.baseTimestampUs with
    | none =>
        obtain ⟨ph, base, ps⟩ := st
        cases base with
        | none =>
            rw [handleDecoded_first]
            simp [effectivePlayHead]
        | some b => simp at hb
    | some b =>
        rw [handleDecoded_next st t ts dur b hb]
        simp only [effectivePlayHead, hb]
        exact le_max_of_le_right (le_max_left _ _)
  · intro hb hlate
    rw [handleDecoded_next st t ts dur b hb]
    simp [max_eq_left hlate.le]
  · intro hb hlate ht
    rw [handleDecoded_next st t ts dur b hb]
    simp [max_eq_left hlate.le, max_eq_right ht]

/-- Witness for C8 (amended): state with playhead 1, late frame (target 0),
clock 1/2 behind the playhead: `startAt = 1`, the playhead. -/
theorem startAt_never_precedes_playhead_witness :
    ((⟨1, some 0, 0⟩ : PlayerState).playHead ≤
        (handleDecoded ⟨1, some 0, 0⟩ (1/2) 0 (1/50)).2) ∧
    (handleDecoded (⟨1, some 0, 0⟩ : PlayerState) (1/2) 0 (1/50)).2 = 1 := by
  have h := startAt_never_precedes_playhead ⟨1, some 0, 0⟩ (1/2) 0 (1/50) 0
  refine ⟨?_, ?_⟩
  · have h1 := h.1
    simpa [effectivePlayHead] using h1
  · have h3 := h.2.2 rfl (by norm_num) (by norm_num)
    simpa using h3

/-- Witness for C7 at concrete clock times 0, 1/100, 2/100. -/
theorem playout_three_prompt_frames_witness :
    (handleDecoded initPlayer 0 0 (1/50)).2 = 0 + jitterSec ∧
    (handleDecoded (handleDecoded initPlayer 0 0 (1/50)).1
        (1/100) 20000 (1/50)).2 = (handleDecoded initPlayer 0 0 (1/50)).2 + 1/50 ∧
    (handleDecoded (handleDecoded (handleDecoded initPlayer 0 0 (1/50)).1
        (1/100) 20000 (1/50)).1 (2/100) 40000 (1/50)).2 =
      (handleDecoded (handleDecoded initPlayer 0 0 (1/50)).1
        (1/100) 20000 (1/50)).2 + 1/50 := by
  have h := playout_three_prompt_frames 0 (1/100) (2/100) ?_ ?_
  · exact h
  · rw [show initPlayer = (⟨0, none, 0⟩ : PlayerState) from rfl,
      handleDecoded_first]
    norm_num [jitterSec]
  · rw [show initPlayer = (⟨0, none, 0⟩ : PlayerState) from rfl,
      handleDecoded_first, handleDecoded_next _ _ _ _ 0 rfl]
    norm_num [jitterSec]

/-! ## Wire-format lemmas -/

theorem getD_drop (l : List Nat) (n i : Nat) :
    (l.drop n).getD i 0 = l.getD (n + i) 0 := by
  induction n generalizing l with
  | zero => simp
  | succ n ih =>
      cases l with
      | nil => simp
      | cons a tl =>
          simp only [List.drop_succ_cons, ih tl]
          rw [Nat.succ_add]
          simp [List.getD]

theorem leNat_take_four (l : List Nat) :
    leNat (l.take 4) =
      l.getD 0 0 + 256 * l.getD 1 0 + 65536 * l.getD 2 0 +
        16777216 * l.getD 3 0 := by
  rcases l with _ | ⟨a, _ | ⟨b, _ | ⟨c, _ | ⟨d, tl⟩⟩⟩⟩ <;>
    simp [leNat, List.getD] <;> ring

theorem leNat_take_eight (l : List Nat) :
    leNat (l.take 8) =
      l.getD 0 0 + 256 * l.getD 1 0 + 65536 * l.getD 2 0 +
        16777216 * l.getD 3 0 + 4294967296 * l.getD 4 0 +
        1099511627776 * l.getD 5 0 + 281474976710656 * l.getD 6 0 +
        72057594037927936 * l.getD 7 0 := by
  rcases l with _ | ⟨a, _ | ⟨b, _ | ⟨c, _ | ⟨d, _ | ⟨e, _ | ⟨f, _ | ⟨g, _ | ⟨h, tl⟩⟩⟩⟩⟩⟩⟩⟩ <;>
    simp [leNat, List.getD] <;> ring

theorem getUint32le_eq_leNat (b : List Nat) (off : Nat) :
    getUint32le b off = leNat ((b.drop off).take 4) := by
  rw [leNat_take_four]
  simp [getUint32le, getD_drop]

theorem getUint64le_eq_leNat (b : List Nat) (off : Nat) :
    getUint64le b off = leNat ((b.drop off).take 8) := by
  rw [leNat_take_eight]
  simp [getUint64le, getD_drop]

theorem getBigInt64le_eq_toSigned64 (b : List Nat) (off : Nat) :
    getBigInt64le b off = toSigned64 (getUint64le b off) := rfl

/-- C9: binary messages shorter than 13 bytes, or whose byte 0 is not
`0x01`, are dropped (nothing reaches the decoder, no state change);
otherwise bytes 1-4 are read as the little-endian 32-bit sequence number,
bytes 5-12 as the little-endian 64-bit (two's-complement) presentation
timestamp in milliseconds, and exactly the bytes from offset 13 onward are
handed to the decoder as the compressed payload. -/
theorem handleBinary_spec (buffer : List Nat) :
    ((buffer.length < 13 ∨ buffer.getD 0 0 ≠ 1) → handleBinary buffer = none) ∧
    (13 ≤ buffer.length → buffer.getD 0 0 = 1 →
      handleBinary buffer =
        some (leNat ((buffer.drop 1).take 4),
              toSigned64 (leNat ((buffer.drop 5).take 8)),
              buffer.drop 13)) ∧
    (∀ n, n = leNat ((buffer.drop 5).take 8) → n < 9223372036854775808 →
      toSigned64 n = (n : Int)) := by
  refine ⟨?_, ?_, ?_⟩
  · rintro (h | h)
    · simp [handleBinary, h]
    · unfold handleBinary
      by_cases hlen : buffer.length < 13
      · rw [if_pos hlen]
      · rw [if_neg hlen]
        have h' : ¬ buffer[0]?.getD 0 = 1 := by
          simpa [List.getD] using h
        simp [getUint8, List.getD, h']
  · intro hlen hb
    have hlen' : ¬ buffer.length < 13 := by omega
    unfold handleBinary
    rw [if_neg hlen']
    simp only [getUint8, hb, ne_eq, not_true_eq_false, if_false,
      getUint32le_eq_leNat, getBigInt64le_eq_toSigned64, getUint64le_eq_leNat]
  · intro n hn hlt
    simp [toSigned64, hlt]

/-- Witness for C9: a 14-byte frame with marker `0x01`, sequence number 2,
timestamp 3 ms and payload `[99]` parses to exactly those fields. -/
theorem handleBinary_spec_witness :
    handleBinary [1, 2, 0, 0, 0, 3, 0, 0, 0, 0, 0, 0, 0, 99] =
      some (2, 3, [99]) := by
  have h := (handleBinary_spec
      [1, 2, 0, 0, 0, 3, 0, 0, 0, 0, 0, 0, 0, 99]).2.1 (by decide) (by decide)
  rw [h]
  decide

/-! ## Expiry sweep lemmas -/

theorem sendToAgent_snd (st : ServerState) (d : String) (p : Payload) :
    (sendToAgent st d p).2 =
      if agentOpen st d = true then [Event.sendAgent d p] else [] := by
  unfold sendToAgent agentOpen
  cases h : mapGet st.agents d with
  | none => simp
  | some ws => by_cases hr : ws.readyState = 1 <;> simp [hr]

theorem agentOpen_congr {st1 st2 : ServerState} (d : String)
    (h : st1.agents = st2.agents) : agentOpen st1 d = agentOpen st2 d := by
  unfold agentOpen
  rw [h]

theorem sweepBody_agents (now : Nat) (st : ServerState) (k : String)
    (s : Session) : (sweepBody now st k s).1.agents = st.agents := by
  unfold sweepBody
  by_cases h : s.expiresAt < now
  · rw [if_pos h]
    by_cases h2 : mapGet st.activeSessionByDevice s.deviceId = some k <;>
      simp [h2]
  · rw [if_neg h]

theorem sweepBody_viewers (now : Nat) (st : ServerState) (k : String)
    (s : Session) : (sweepBody now st k s).1.viewers = st.viewers := by
  unfold sweepBody
  by_cases h : s.expiresAt < now
  · rw [if_pos h]
    by_cases h2 : mapGet st.activeSessionByDevice s.deviceId = some k <;>
      simp [h2]
  · rw [if_neg h]

theorem sweepBody_sessions (now : Nat) (st : ServerState) (k : String)
    (s : Session) :
    (sweepBody now st k s).1.sessions =
      if s.expiresAt < now then mapDelete st.sessions k else st.sessions := by
  unfold sweepBody
  by_cases h : s.expiresAt < now
  · rw [if_pos h, if_pos h]
    by_cases h2 : mapGet st.activeSessionByDevice s.deviceId = some k <;>
      simp [h2]
  · rw [if_neg h, if_neg h]

theorem sweepBody_active (now : Nat) (st : ServerState) (k : String)
    (s : Session) :
    (sweepBody now st k s).1.activeSessionByDevice =
      if s.expiresAt < now ∧
          mapGet st.activeSessionByDevice s.deviceId = some k
      then mapDelete st.activeSessionByDevice s.deviceId
      else st.activeSessionByDevice := by
  unfold sweepBody
  by_cases h : s.expiresAt < now
  · rw [if_pos h]
    by_cases h2 : mapGet st.activeSessionByDevice s.deviceId = some k <;>
      simp [h, h2]
  · rw [if_neg h]
    simp [h]

theorem sweepBody_events (now : Nat) (st : ServerState) (k : String)
    (s : Session) :
    (sweepBody now st k s).2 =
      if s.expiresAt < now then
        (if (mapGet st.viewers k).isSome
         then [Event.closeViewer k 4000 "session expired"] else []) ++
        (if mapGet st.activeSessionByDevice s.deviceId = some k
         then (if agentOpen st s.deviceId = true
               then [Event.sendAgent s.deviceId Payload.stopCmd] else [])
         else [])
      else [] := by
  unfold sweepBody
  by_cases h : s.expiresAt < now
  · rw [if_pos h, if_pos h]
    by_cases h2 : mapGet st.activeSessionByDevice s.deviceId = some k
    · rw [if_pos h2]
      have ha : agentOpen
          { st with activeSessionByDevice :=
              mapDelete st.activeSessionByDevice s.deviceId } s.deviceId =
          agentOpen st s.deviceId := agentOpen_congr _ rfl
      cases hv : mapGet st.viewers k with
      | none => simp [h2, hv, sendToAgent_snd, ha]
      | some w => simp [h2, hv, sendToAgent_snd, ha]
    · rw [if_neg h2]
      cases hv : mapGet st.viewers k with
      | none => simp [h2, hv]
      | some w => simp [h2, hv]
  · rw [if_neg h, if_neg h]

theorem sweepStates_agents (now : Nat) :
    ∀ (ls : List (String × Session)) (st : ServerState),
      (sweepStates now st ls).agents = st.agents := by
  intro ls
  induction ls with
  | nil => intro st; rfl
  | cons e rest ih =>
      intro st
      simp only [sweepStates]
      rw [ih, sweepBody_agents]

theorem sweepStates_viewers (now : Nat) :
    ∀ (ls : List (String × Session)) (st : ServerState),
      (sweepStates now st ls).viewers = st.viewers := by
  intro ls
  induction ls with
  | nil => intro st; rfl
  | cons e rest ih =>
      intro st
      simp only [sweepStates]
      rw [ih, sweepBody_viewers]

theorem sweepStates_sessions_none (now : Nat) (sid : String) :
    ∀ (ls : List (String × Session)) (st : ServerState),
      mapGet st.sessions sid = none →
      mapGet (sweepStates now st ls).sessions sid = none := by
  intro ls
  induction ls with
  | nil => intro st h; exact h
  | cons e rest ih =>
      intro st h
      simp only [sweepStates]
      apply ih
      rw [sweepBody_sessions]
      by_cases he : e.2.expiresAt < now
      · rw [if_pos he, mapGet_mapDelete]
        by_cases hke : sid = e.1
        · rw [if_pos hke]
        · rw [if_neg hke]; exact h
      · rw [if_neg he]; exact h

theorem sweepStates_sessions_expired (now : Nat) (sid : String) (s : Session)
    (hexp : s.expiresAt < now) :
    ∀ (ls : List (String × Session)) (st : ServerState), (sid, s) ∈ ls →
      mapGet (sweepStates now st ls).sessions sid = none := by
  intro ls
  induction ls with
  | nil => intro st h; simp at h
  | cons e rest ih =>
      intro st hmem
      simp only [sweepStates]
      rcases List.mem_cons.mp hmem with rfl | hmem'
      · apply sweepStates_sessions_none
        rw [sweepBody_sessions]
        simp only [if_pos hexp]
        rw [mapGet_mapDelete, if_pos rfl]
      · exact ih _ hmem'

theorem sweepStates_sessions_notExpired (now : Nat) (sid : String) :
    ∀ (ls : List (String × Session)) (st : ServerState),
      (∀ s', (sid, s') ∈ ls → ¬ s'.expiresAt < now) →
      mapGet (sweepStates now st ls).sessions sid = mapGet st.sessions sid := by
  intro ls
  induction ls with
  | nil => intro st _; rfl
  | cons e rest ih =>
      intro st hun
      simp only [sweepStates]
      rw [ih _ (fun s' hm => hun s' (List.mem_cons_of_mem e hm))]
      rw [sweepBody_sessions]
      by_cases he : e.2.expiresAt < now
      · have hke : sid ≠ e.1 := by
          rintro rfl
          exact hun e.2 (List.mem_cons_self _ _) he
        rw [if_pos he, mapGet_mapDelete, if_neg hke]
      · rw [if_neg he]

theorem sweepStates_active_none (now : Nat) (d : String) :
    ∀ (ls : List (String × Session)) (st : ServerState),
      mapGet st.activeSessionByDevice d = none →
      mapGet (sweepStates now st ls).activeSessionByDevice d = none := by
  intro ls
  induction ls with
  | nil => intro st h; exact h
  | cons e rest ih =>
      intro st h
      simp only [sweepStates]
      apply ih
      rw [sweepBody_active]
      by_cases hc : e.2.expiresAt < now ∧
          mapGet st.activeSessionByDevice e.2.deviceId = some e.1
      · rw [if_pos hc, mapGet_mapDelete]
        by_cases hd : d = e.2.deviceId
        · rw [if_pos hd]
        · rw [if_neg hd]; exact h
      · rw [if_neg hc]; exact h

theorem sweepStates_active_deleted (now : Nat) (sid : String) (s : Session)
    (hexp : s.expiresAt < now) :
    ∀ (ls : List (String × Session)) (st : ServerState), (sid, s) ∈ ls →
      mapGet st.activeSessionByDevice s.deviceId = some sid →
      mapGet (sweepStates now st ls).activeSessionByDevice s.deviceId = none := by
  intro ls
  induction ls with
  | nil => intro st h; simp at h
  | cons e rest ih =>
      intro st hmem hpair
      simp only [sweepStates]
      rcases List.mem_cons.mp hmem with rfl | hmem'
      · apply sweepStates_active_none
        rw [sweepBody_active, if_pos ⟨hexp, hpair⟩, mapGet_mapDelete,
          if_pos rfl]
      · by_cases hc : e.2.expiresAt < now ∧
            mapGet st.activeSessionByDevice e.2.deviceId = some e.1
        · by_cases hd : s.deviceId = e.2.deviceId
          · apply sweepStates_active_none
            rw [sweepBody_active, if_pos hc, mapGet_mapDelete, if_pos hd]
          · apply ih _ hmem'
            rw [sweepBody_active, if_pos hc, mapGet_mapDelete, if_neg hd]
            exact hpair
        · apply ih _ hmem'
          rw [sweepBody_active, if_neg hc]
          exact hpair

theorem sweepStates_active_preserved (now : Nat) (d sid : String) :
    ∀ (ls : List (String × Session)) (st : ServerState),
      mapGet st.activeSessionByDevice d = some sid →
      (∀ s', (sid, s') ∈ ls → ¬ s'.expiresAt < now) →
      mapGet (sweepStates now st ls).activeSessionByDevice d = some sid := by
  intro ls
  induction ls with
  | nil => intro st h _; exact h
  | cons e rest ih =>
      intro st hpair hun
      simp only [sweepStates]
      apply ih _ _ (fun s' hm => hun s' (List.mem_cons_of_mem e hm))
      rw [sweepBody_active]
      by_cases hc : e.2.expiresAt < now ∧
          mapGet st.activeSessionByDevice e.2.deviceId = some e.1
      · have hd : d ≠ e.2.deviceId := by
          rintro rfl
          rw [hpair] at hc
          obtain ⟨hce, hcp⟩ := hc
          rw [Option.some.injEq] at hcp
          exact hun e.2 (by rw [hcp]; exact List.mem_cons_self _ _) hce
        rw [if_pos hc, mapGet_mapDelete, if_neg hd]
        exact hpair
      · rw [if_neg hc]
        exact hpair

theorem sweepBody_active_none (now : Nat) (st : ServerState) (k : String)
    (s : Session) (d : String)
    (h : mapGet st.activeSessionByDevice d = none) :
    mapGet (sweepBody now st k s).1.activeSessionByDevice d = none := by
  rw [sweepBody_active]
  by_cases hc : s.expiresAt < now ∧
      mapGet st.activeSessionByDevice s.deviceId = some k
  · rw [if_pos hc, mapGet_mapDelete]
    by_cases hd : d = s.deviceId
    · rw [if_pos hd]
    · rw [if_neg hd]; exact h
  · rw [if_neg hc]; exact h

theorem sweepBody_stop_count (now : Nat) (st : ServerState) (k : String)
    (s : Session) (d : String) :
    ((sweepBody now st k s).2).count (Event.sendAgent d Payload.stopCmd) =
      if s.expiresAt < now ∧ s.deviceId = d ∧
          mapGet st.activeSessionByDevice s.deviceId = some k ∧
          agentOpen st s.deviceId = true
      then 1 else 0 := by
  rw [sweepBody_events]
  by_cases he : s.expiresAt < now
  · rw [if_pos he]
    by_cases h2 : mapGet st.activeSessionByDevice s.deviceId = some k
    · by_cases ho : agentOpen st s.deviceId = true
      · by_cases hd : s.deviceId = d
        · subst hd
          simp [h2, ho, he, List.count_append, List.count_cons]
          by_cases hv : (mapGet st.viewers k).isSome <;> simp [hv]
        · simp [h2, ho, he, hd, List.count_append, List.count_cons]
          by_cases hv : (mapGet st.viewers k).isSome <;>
            simp [hv, Ne.symm hd]
      · simp [h2, ho, List.count_append]
        by_cases hv : (mapGet st.viewers k).isSome <;> simp [hv, ho]
    · simp [h2, List.count_append]
      by_cases hv : (mapGet st.viewers k).isSome <;> simp [hv, h2]
  · rw [if_neg he]
    simp [he]

theorem sweepBody_close_count (now : Nat) (st : ServerState) (k : String)
    (s : Session) (sid : String) :
    ((sweepBody now st k s).2).count
        (Event.closeViewer sid 4000 "session expired") =
      if s.expiresAt < now ∧ k = sid ∧ (mapGet st.viewers k).isSome
      then 1 else 0 := by
  rw [sweepBody_events]
  by_cases he : s.expiresAt < now
  · rw [if_pos he]
    by_cases hv : (mapGet st.viewers k).isSome
    · by_cases hk : k = sid
      · subst hk
        simp [hv, he, List.count_append, List.count_cons]
        by_cases h2 : mapGet st.activeSessionByDevice s.deviceId = some k <;>
          by_cases ho : agentOpen st s.deviceId = true <;> simp [h2, ho]
      · simp [hv, hk, List.count_append, List.count_cons]
        by_cases h2 : mapGet st.activeSessionByDevice s.deviceId = some k <;>
          by_cases ho : agentOpen st s.deviceId = true <;> simp [h2, ho, hk]
    · simp [hv, List.count_append]
      by_cases h2 : mapGet st.activeSessionByDevice s.deviceId = some k <;>
        by_cases ho : agentOpen st s.deviceId = true <;> simp [h2, ho, hv]
  · rw [if_neg he]
    simp [he]

theorem sweepEvents_stop_count_zero (now : Nat) (d : String) :
    ∀ (ls : List (String × Session)) (st : ServerState),
      mapGet st.activeSessionByDevice d = none →
      (sweepEvents now st ls).count (Event.sendAgent d Payload.stopCmd) = 0 := by
  intro ls
  induction ls with
  | nil => intro st _; rfl
  | cons e rest ih =>
      intro st h
      simp only [sweepEvents, List.count_append]
      rw [sweepBody_stop_count]
      have hc : ¬ (e.2.expiresAt < now ∧ e.2.deviceId = d ∧
          mapGet st.activeSessionByDevice e.2.deviceId = some e.1 ∧
          agentOpen st e.2.deviceId = true) := by
        rintro ⟨_, hd, hp, _⟩
        rw [hd, h] at hp
        exact Option.noConfusion hp
      rw [if_neg hc, ih _ (sweepBody_active_none now st e.1 e.2 d h)]

theorem sweepEvents_stop_count_one (now : Nat) (sid : String) (s : Session)
    (hexp : s.expiresAt < now) :
    ∀ (ls : List (String × Session)) (st : ServerState),
      (ls.map Prod.fst).Nodup → (sid, s) ∈ ls →
      mapGet st.activeSessionByDevice s.deviceId = some sid →
      agentOpen st s.deviceId = true →
      (sweepEvents now st ls).count
        (Event.sendAgent s.deviceId Payload.stopCmd) = 1 := by
  intro ls
  induction ls with
  | nil => intro st _ h; simp at h
  | cons e rest ih =>
      intro st hnd hmem hpair hopen
      simp only [sweepEvents, List.count_append]
      rcases List.mem_cons.mp hmem with rfl | hmem'
      · rw [sweepBody_stop_count, if_pos ⟨hexp, rfl, hpair, hopen⟩]
        have hz : mapGet (sweepBody now st sid s).1.activeSessionByDevice
            s.deviceId = none := by
          rw [sweepBody_active, if_pos ⟨hexp, hpair⟩, mapGet_mapDelete,
            if_pos rfl]
        rw [sweepEvents_stop_count_zero now s.deviceId rest _ hz]
      · simp only [List.map_cons, List.nodup_cons] at hnd
        have hne : e.1 ≠ sid := by
          rintro rfl
          exact hnd.1 (List.mem_map.mpr ⟨(e.1, s), hmem', rfl⟩)
        rw [sweepBody_stop_count]
        have hc : ¬ (e.2.expiresAt < now ∧ e.2.deviceId = s.deviceId ∧
            mapGet st.activeSessionByDevice e.2.deviceId = some e.1 ∧
            agentOpen st e.2.deviceId = true) := by
          rintro ⟨_, hd, hp, _⟩
          rw [hd, hpair] at hp
          rw [Option.some.injEq] at hp
          exact hne hp.symm
        rw [if_neg hc, Nat.zero_add]
        have hpair' : mapGet (sweepBody now st e.1 e.2).1.activeSessionByDevice
            s.deviceId = some sid := by
          rw [sweepBody_active]
          by_cases hcc : e.2.expiresAt < now ∧
              mapGet st.activeSessionByDevice e.2.deviceId = some e.1
          · have hd : s.deviceId ≠ e.2.deviceId := by
              rintro hdd
              rw [← hdd, hpair, Option.some.injEq] at hcc
              exact hne hcc.2.symm
            rw [if_pos hcc, mapGet_mapDelete, if_neg hd]
            exact hpair
          · rw [if_neg hcc]
            exact hpair
        have hopen' : agentOpen (sweepBody now st e.1 e.2).1 s.deviceId = true := by
          rw [agentOpen_congr s.deviceId (sweepBody_agents now st e.1 e.2)]
          exact hopen
        exact ih _ hnd.2 hmem' hpair' hopen'

theorem sweepEvents_close_count_zero (now : Nat) (sid : String) :
    ∀ (ls : List (String × Session)) (st : ServerState),
      sid ∉ ls.map Prod.fst →
      (sweepEvents now st ls).count
        (Event.closeViewer sid 4000 "session expired") = 0 := by
  intro ls
  induction ls with
  | nil => intro st _; rfl
  | cons e rest ih =>
      intro st hnm
      simp only [List.map_cons, List.mem_cons] at hnm
      push_neg at hnm
      simp only [sweepEvents, List.count_append]
      rw [sweepBody_close_count]
      have hc : ¬ (e.2.expiresAt < now ∧ e.1 = sid ∧
          (mapGet st.viewers e.1).isSome) := by
        rintro ⟨_, hk, _⟩
        exact hnm.1 hk.symm
      rw [if_neg hc, ih _ hnm.2]

theorem sweepEvents_close_count_one (now : Nat) (sid : String) (s : Session)
    (hexp : s.expiresAt < now) :
    ∀ (ls : List (String × Session)) (st : ServerState),
      (ls.map Prod.fst).Nodup → (sid, s) ∈ ls →
      (mapGet st.viewers sid).isSome →
      (sweepEvents now st ls).count
        (Event.closeViewer sid 4000 "session expired") = 1 := by
  intro ls
  induction ls with
  | nil => intro st _ h; simp at h
  | cons e rest ih =>
      intro st hnd hmem hv
      simp only [List.map_cons, List.nodup_cons] at hnd
      simp only [sweepEvents, List.count_append]
      rcases List.mem_cons.mp hmem with rfl | hmem'
      · rw [sweepBody_close_count, if_pos ⟨hexp, rfl, hv⟩]
        rw [sweepEvents_close_count_zero now sid rest _ hnd.1]
      · have hne : e.1 ≠ sid := by
          rintro rfl
          exact hnd.1 (List.mem_map.mpr ⟨(e.1, s), hmem', rfl⟩)
        rw [sweepBody_close_count]
        have hc : ¬ (e.2.expiresAt < now ∧ e.1 = sid ∧
            (mapGet st.viewers e.1).isSome) := by
          rintro ⟨_, hk, _⟩
          exact hne hk
        rw [if_neg hc, Nat.zero_add]
        have hv' : (mapGet (sweepBody now st e.1 e.2).1.viewers sid).isSome := by
          rw [sweepBody_viewers]
          exact hv
        exact ih _ hnd.2 hmem' hv'

/-- C5: sweeping at time `now` removes exactly the sessions with
`expiresAt < now`; for each removed session that was the Active Pairing of
its device, the pairing entry is removed, exactly one `stop` instruction is
sent to that (connected, open) device, and exactly one expiry close
(`4000, session expired`) is delivered to the session's viewer if one is
connected; unexpired sessions and the pairings of unexpired sessions are
left unchanged. -/
theorem cleanupExpiredSessions_spec (st : ServerState) (now : Nat)
    (hnodup : (st.sessions.map Prod.fst).Nodup) :
    (∀ sid s, mapGet st.sessions sid = some s → s.expiresAt < now →
       mapGet (cleanupExpiredSessions st now).1.sessions sid = none) ∧
    (∀ sid s, mapGet st.sessions sid = some s → ¬ s.expiresAt < now →
       mapGet (cleanupExpiredSessions st now).1.sessions sid = some s) ∧
    (∀ sid s, mapGet st.sessions sid = some s → s.expiresAt < now →
       mapGet st.activeSessionByDevice s.deviceId = some sid →
       (mapGet (cleanupExpiredSessions st now).1.activeSessionByDevice
           s.deviceId = none ∧
        (agentOpen st s.deviceId = true →
          (cleanupExpiredSessions st now).2.count
            (Event.sendAgent s.deviceId Payload.stopCmd) = 1) ∧
        ((mapGet st.viewers sid).isSome →
          (cleanupExpiredSessions st now).2.count
            (Event.closeViewer sid 4000 "session expired") = 1))) ∧
    (∀ d sid s, mapGet st.activeSessionByDevice d = some sid →
       mapGet st.sessions sid = some s → ¬ s.expiresAt < now →
       mapGet (cleanupExpiredSessions st now).1.activeSessionByDevice d
         = some sid) := by
  simp only [cleanupExpiredSessions]
  refine ⟨?_, ?_, ?_, ?_⟩
  · intro sid s hs hexp
    exact sweepStates_sessions_expired now sid s hexp _ _ (mem_of_mapGet hs)
  · intro sid s hs hun
    rw [sweepStates_sessions_notExpired now sid _ _ ?_]
    · exact hs
    · intro s' hm
      have h' := mapGet_eq_of_mem_nodup hnodup hm
      rw [hs, Option.some.injEq] at h'
      rw [← h']
      exact hun
  · intro sid s hs hexp hpair
    refine ⟨?_, ?_, ?_⟩
    · exact sweepStates_active_deleted now sid s hexp _ _
        (mem_of_mapGet hs) hpair
    · intro hopen
      exact sweepEvents_stop_count_one now sid s hexp _ _ hnodup
        (mem_of_mapGet hs) hpair hopen
    · intro hv
      exact sweepEvents_close_count_one now sid s hexp _ _ hnodup
        (mem_of_mapGet hs) hv
  · intro d sid s hpair hs hun
    apply sweepStates_active_preserved now d sid _ _ hpair
    intro s' hm
    have h' := mapGet_eq_of_mem_nodup hnodup hm
    rw [hs, Option.some.injEq] at h'
    rw [← h']
    exact hun

/-- A concrete broker state for exercising the sweep: session `"s1"`
(expires 50) is paired to device `"d1"` whose agent is open and whose
viewer is connected; session `"s2"` (expires 200) is paired to `"d2"`. -/
def sweepWitnessState : ServerState :=
  { agents := [("d1", ⟨3, 1⟩)],
    sessions := [("s1", ⟨"d1", "t1", "u", 50⟩), ("s2", ⟨"d2", "t2", "u", 200⟩)],
    viewers := [("s1", ⟨9, 1⟩)],
    activeSessionByDevice := [("d1", "s1"), ("d2", "s2")] }

/-- Witness for C5: sweeping `sweepWitnessState` at `now = 100` removes
`"s1"` and its pairing, emits exactly one `stop` to `"d1"` and one expiry
close to `"s1"`'s viewer, and leaves `"s2"` and its pairing untouched. -/
theorem cleanupExpiredSessions_spec_witness :
    mapGet (cleanupExpiredSessions sweepWitnessState 100).1.sessions "s1"
        = none ∧
    mapGet (cleanupExpiredSessions sweepWitnessState 100).1.sessions "s2"
        = some ⟨"d2", "t2", "u", 200⟩ ∧
    mapGet (cleanupExpiredSessions
        sweepWitnessState 100).1.activeSessionByDevice "d1" = none ∧
    (cleanupExpiredSessions sweepWitnessState 100).2.count
        (Event.sendAgent "d1" Payload.stopCmd) = 1 ∧
    (cleanupExpiredSessions sweepWitnessState 100).2.count
        (Event.closeViewer "s1" 4000 "session expired") = 1 ∧
    mapGet (cleanupExpiredSessions
        sweepWitnessState 100).1.activeSessionByDevice "d2" = some "s2" := by
  have h := cleanupExpiredSessions_spec sweepWitnessState 100 (by decide)
  have h3 := h.2.2.1 "s1" ⟨"d1", "t1", "u", 50⟩ (by decide) (by decide)
    (by decide)
  exact ⟨h.1 "s1" ⟨"d1", "t1", "u", 50⟩ (by decide) (by decide),
    h.2.1 "s2" ⟨"d2", "t2", "u", 200⟩ (by decide) (by decide),
    h3.1, h3.2.1 (by decide), h3.2.2 (by decide),
    h.2.2.2 "d2" "s2" ⟨"d2", "t2", "u", 200⟩ (by decide) (by decide)
      (by decide)⟩

end MeshAudio
